import Mathlib

/-!
# Verification of the agent-core session engine

A shallow embedding, in Lean 4, of the session-state engine of the
`agent-core` repository (`scripts/log_url.py`, `scripts/archive_session.py`,
`scripts/init_session.py`, `scripts/sync_environments.py`), together with
theorems settling the specification's claims about it.

Python dictionaries that the engine reads with `.get` fallbacks are
modelled as structures with `Option`-typed fields (`none` = key absent);
Python strings are Lean `String`s (both are sequences of code points);
directory trees are association lists from names to entries; JSON parsing
is an abstract `String → Option _` parameter, `none` marking a malformed
document that `json.loads` would reject.
-/

set_option autoImplicit false

namespace AgentCore

/-- One element of a Scratchpad's `urls_visited` sequence, as read back from a
JSON document: each key may be absent (`archive_session.py` reads every field
with `item.get(...)` fallbacks). -/
structure VisitedItem where
  url : Option String
  source : Option String
  name : Option String
  timestamp : Option String
  relevance : Option Int
  notes : Option String
deriving Repr, DecidableEq

/-- A free-form candidate record (`viral_candidates`,
`groundbreaker_candidates`, `arxiv_papers` items); every key optional, matching
the `.get` chains in `archive_session.extract_learnings`. -/
structure Candidate where
  name : Option String
  url : Option String
  why : Option String
  novel : Option String
  notes : Option String
  title : Option String
  insight : Option String
deriving Repr, DecidableEq

/-- The Scratchpad record with every defined key present, as it stands after
`ensure_scratchpad_keys` has run (the shape `log_to_scratchpad` mutates).
`findings` and `checkpoints` are opaque to the engine and modelled as strings. -/
structure Scratchpad where
  urls_visited : List VisitedItem
  urls_used : List String
  urls_skipped : List String
  viral_candidates : List Candidate
  groundbreaker_candidates : List Candidate
  arxiv_papers : List Candidate
  findings : List String
  checkpoints : List String
  last_checkpoint : Option String
  last_updated : Option String
deriving Repr, DecidableEq

/-- The `entry` dict built in `log_url.main` (lines 241-254). -/
structure LogEntry where
  url : String
  source : String
  name : String
  timestamp : String
  time : String
  used : Bool
  skipped : Bool
  relevance : Int
  relevance_stars : String
  notes : String
  filter : String
  stars : Option Int
deriving Repr, DecidableEq

/-- The `url_entry` projection written into `urls_visited` by
`log_to_scratchpad` (log_url.py lines 152-159). -/
def url_entry_of (e : LogEntry) : VisitedItem :=
  { url := some e.url
    source := some e.source
    name := some e.name
    timestamp := some e.timestamp
    relevance := some e.relevance
    notes := some e.notes }

/-- The state change `log_to_scratchpad` performs on an in-memory Scratchpad
(log_url.py lines 161-168): append the entry to `urls_visited`; if
`entry["used"]` append the URL to `urls_used`, elif `entry.get("skipped")`
append it to `urls_skipped`; set `last_updated` to the entry's timestamp. -/
def apply_log_event (sp : Scratchpad) (e : LogEntry) : Scratchpad :=
  let sp1 := { sp with urls_visited := sp.urls_visited ++ [url_entry_of e] }
  let sp2 :=
    if e.used then { sp1 with urls_used := sp1.urls_used ++ [e.url] }
    else if e.skipped then { sp1 with urls_skipped := sp1.urls_skipped ++ [e.url] }
    else sp1
  { sp2 with last_updated := some e.timestamp }

/-- The command-line arguments of `log_url.py` after `argparse` (optional flags
become `none` when not supplied; `--used` and `--skipped` are independent
store_true flags). -/
structure LogArgs where
  url : String
  source : Option String
  name : Option String
  used : Bool
  skipped : Bool
  relevance : Int
  notes : Option String
  filter : Option String
  stars : Option Int
deriving Repr, DecidableEq

/-- `relevance_to_stars` (log_url.py lines 87-96). -/
def relevance_to_stars (relevance : Int) : String :=
  if 3 ≤ relevance then "★★★"
  else if relevance = 2 then "★★☆"
  else if relevance = 1 then "★☆☆"
  else "☆☆☆"

/-- The `entry` dict construction in `log_url.main` (lines 236-254).
The peripheral URL heuristics `detect_source` and `extract_name` (spec §1
treats them as external collaborators) and the two clock readings are passed
in as parameters. -/
def build_entry (detect : String → String) (extractName : String → String → String)
    (now_iso now_hm : String) (args : LogArgs) : LogEntry :=
  let source := args.source.getD (detect args.url)
  let name := args.name.getD (extractName args.url source)
  { url := args.url
    source := source
    name := name
    timestamp := now_iso
    time := now_hm
    used := args.used
    skipped := args.skipped
    relevance := args.relevance
    relevance_stars := relevance_to_stars args.relevance
    notes := args.notes.getD ""
    filter := args.filter.getD ""
    stars := args.stars }

/-- A concrete `log_url.py` invocation passing both `--used` and `--skipped`. -/
def bothFlagsArgs : LogArgs :=
  { url := "https://example.com"
    source := none
    name := none
    used := true
    skipped := true
    relevance := 2
    notes := none
    filter := none
    stars := none }

/-- The Session document's fields used by the engine (init_session.py
lines 182-205; `paths_local` stands for `paths["local"]`, the only path the
continue operation rewrites). -/
structure Session where
  session_id : String
  topic : String
  workflow : String
  environment : String
  started : String
  status : String
  paths_local : String
  resumed_at : Option String
  archived_at : Option String
deriving Repr, DecidableEq

/-- `log_url.get_current_session` (log_url.py lines 33-38): when the Session
document exists it is fed straight to `json.loads` with no exception handler,
so a parse failure (modelled as `parse text = none`) propagates to the caller
as an exception (`Except.error`); when the file is absent the function
returns `None`. -/
def get_current_session_log_url (parse : String → Option Session)
    (content : Option String) : Except String (Option Session) :=
  match content with
  | some text =>
      match parse text with
      | some s => Except.ok (some s)
      | none => Except.error "JSONDecodeError"
  | none => Except.ok none

/-- `archive_session.get_current_session` (archive_session.py lines 32-41),
identical in shape to `sync_environments.get_current_session` (lines 39-48):
`json.loads` is wrapped in `try/except json.JSONDecodeError`, so both an
absent and a malformed document yield `None`. -/
def get_current_session_archive (parse : String → Option Session)
    (content : Option String) : Option Session :=
  match content with
  | some text => parse text
  | none => none

/-- The Scratchpad JSON document as stored on disk: each defined key may be
absent (`none` on the outer `Option`). `last_checkpoint` and `last_updated`
additionally distinguish a stored `null` (`some none`) from a stored value. -/
structure ScratchpadDoc where
  urls_visited : Option (List VisitedItem)
  urls_used : Option (List String)
  urls_skipped : Option (List String)
  viral_candidates : Option (List Candidate)
  groundbreaker_candidates : Option (List Candidate)
  arxiv_papers : Option (List Candidate)
  findings : Option (List String)
  checkpoints : Option (List String)
  last_checkpoint : Option (Option String)
  last_updated : Option (Option String)
deriving Repr, DecidableEq

/-- `ensure_scratchpad_keys` (log_url.py lines 99-114): its `defaults` table
lists exactly the eight sequence-valued keys, and for each of them the key is
set to the empty list when absent (`if key not in scratchpad`), i.e. the key's
value afterwards is the existing value if the key was present, else the
default. No other key is touched. -/
def ensure_scratchpad_keys (d : ScratchpadDoc) : ScratchpadDoc :=
  { d with
    urls_visited := some (d.urls_visited.getD [])
    urls_used := some (d.urls_used.getD [])
    urls_skipped := some (d.urls_skipped.getD [])
    viral_candidates := some (d.viral_candidates.getD [])
    groundbreaker_candidates := some (d.groundbreaker_candidates.getD [])
    arxiv_papers := some (d.arxiv_papers.getD [])
    findings := some (d.findings.getD [])
    checkpoints := some (d.checkpoints.getD []) }

/-- The eight sequence-valued Scratchpad keys are all present. -/
def sequenceKeysPresent (d : ScratchpadDoc) : Prop :=
  d.urls_visited.isSome = true ∧ d.urls_used.isSome = true
    ∧ d.urls_skipped.isSome = true ∧ d.viral_candidates.isSome = true
    ∧ d.groundbreaker_candidates.isSome = true ∧ d.arxiv_papers.isSome = true
    ∧ d.findings.isSome = true ∧ d.checkpoints.isSome = true

/-- Every defined Scratchpad key (the eight sequences plus `last_checkpoint`
and `last_updated`) is present in the document. -/
def scratchpadDocComplete (d : ScratchpadDoc) : Prop :=
  sequenceKeysPresent d ∧ d.last_checkpoint.isSome = true
    ∧ d.last_updated.isSome = true

/-- A Scratchpad document with every key absent (e.g. `{}` on disk). -/
def emptyScratchpadDoc : ScratchpadDoc :=
  { urls_visited := none
    urls_used := none
    urls_skipped := none
    viral_candidates := none
    groundbreaker_candidates := none
    arxiv_papers := none
    findings := none
    checkpoints := none
    last_checkpoint := none
    last_updated := none }

/-- A Scratchpad document with every defined key present (the shape
`init_session.create_scratchpad` writes). -/
def completeScratchpadDoc : ScratchpadDoc :=
  { urls_visited := some []
    urls_used := some []
    urls_skipped := some []
    viral_candidates := some []
    groundbreaker_candidates := some []
    arxiv_papers := some []
    findings := some []
    checkpoints := some []
    last_checkpoint := some none
    last_updated := some (some "2025-01-01T00:00:00") }

/-- A derived Learning (archive_session.extract_learnings): every append in
the source sets all four keys. -/
structure Learning where
  type : String
  name : String
  url : String
  insight : String
deriving Repr, DecidableEq

/-- The Learning built from one viral candidate
(archive_session.py lines 69-76). -/
def viralLearning (c : Candidate) : Learning :=
  { type := "tool"
    name := c.name.getD "Unknown"
    url := c.url.getD ""
    insight := "High-adoption: " ++ c.why.getD (c.notes.getD "well-maintained") }

/-- The Learning built from one groundbreaker candidate
(archive_session.py lines 79-86). -/
def groundbreakerLearning (c : Candidate) : Learning :=
  { type := "innovation"
    name := c.name.getD "Unknown"
    url := c.url.getD ""
    insight := "Novel: " ++ c.novel.getD (c.why.getD (c.notes.getD "emerging")) }

/-- The Learning built from one arXiv paper record
(archive_session.py lines 89-96). -/
def arxivLearning (c : Candidate) : Learning :=
  { type := "paper"
    name := c.title.getD (c.name.getD "Unknown")
    url := c.url.getD ""
    insight := c.insight.getD (c.notes.getD "Research finding") }

/-- The Learning built from one high-relevance visited URL
(archive_session.py lines 102-107). -/
def resourceLearning (item : VisitedItem) : Learning :=
  { type := "resource"
    name := item.name.getD (item.url.getD "Unknown")
    url := item.url.getD ""
    insight := item.notes.getD "High relevance resource" }

/-- The final loop of `extract_learnings` (archive_session.py lines 99-107):
walk `urls_visited`, appending a resource Learning for each entry with
`relevance >= 3` whose URL (`item.get("url")`, possibly absent) is not among
the URLs of the Learnings accumulated so far. -/
def addResourceLearnings : List Learning → List VisitedItem → List Learning
  | acc, [] => acc
  | acc, item :: rest =>
    if 3 ≤ item.relevance.getD 0 ∧ ∀ l ∈ acc, item.url ≠ some l.url then
      addResourceLearnings (acc ++ [resourceLearning item]) rest
    else
      addResourceLearnings acc rest

/-- `extract_learnings` (archive_session.py lines 64-109): viral candidates,
then groundbreaker candidates, then arXiv papers, then deduplicated
high-relevance visited URLs. -/
def extract_learnings (sp : Scratchpad) : List Learning :=
  addResourceLearnings
    (sp.viral_candidates.map viralLearning
      ++ sp.groundbreaker_candidates.map groundbreakerLearning
      ++ sp.arxiv_papers.map arxivLearning)
    sp.urls_visited

/-- Modelled from the spec's words (for comparison with the code): the
resource Learnings are the `relevance >= 3` entries of `urls_visited` whose
URL is not already represented among the URLs `seen` of earlier Learnings,
first occurrence wins. -/
def resourceLearningsSpec (seen : List String) : List VisitedItem → List Learning
  | [] => []
  | item :: rest =>
    if 3 ≤ item.relevance.getD 0 ∧ ∀ u ∈ seen, item.url ≠ some u then
      resourceLearning item
        :: resourceLearningsSpec (seen ++ [(resourceLearning item).url]) rest
    else
      resourceLearningsSpec seen rest

/-- A visited URL with relevance 3 (for the duplicate-URL scenario). -/
def dupVisited : VisitedItem :=
  { url := some "https://dup.example"
    source := some "web"
    name := some "dup.example"
    timestamp := some "2025-01-01T00:00:00"
    relevance := some 3
    notes := some "seen twice" }

/-- A Scratchpad whose only content is the same relevance-3 URL logged
twice. -/
def dupUrlScratchpad : Scratchpad :=
  { urls_visited := [dupVisited, dupVisited]
    urls_used := []
    urls_skipped := []
    viral_candidates := []
    groundbreaker_candidates := []
    arxiv_papers := []
    findings := []
    checkpoints := []
    last_checkpoint := none
    last_updated := none }

/-- The content of one file in a tier directory: either plain text or a
Session document (what `session.json` holds). -/
inductive FileContent where
  | text (s : String)
  | sessionDoc (s : Session)
deriving Repr, DecidableEq

/-- One entry of a tier directory: a regular file, or a subdirectory (its
contained files listed as name/content pairs). -/
inductive FsEntry where
  | file (c : FileContent)
  | dir (sub : List (String × String))
deriving Repr, DecidableEq

/-- A directory as an association list from entry names (unique, as in a real
directory) to entries. -/
abbrev DirListing := List (String × FsEntry)

/-- Write a named entry into a directory: overwrite the entry of that name if
present, else add it. -/
def setEntry : DirListing → String → FsEntry → DirListing
  | [], nm, v => [(nm, v)]
  | (k, w) :: rest, nm, v =>
    if k = nm then (k, v) :: rest else (k, w) :: setEntry rest nm v

/-- Look up a directory entry by name. -/
def lookupEntry : DirListing → String → Option FsEntry
  | [], _ => none
  | (k, w) :: rest, nm => if k = nm then some w else lookupEntry rest nm

/-- The cleanup loop of `archive_session` (archive_session.py lines 328-332):
`for item in local_dir.iterdir()` unlink every file and remove every
subdirectory tree — afterwards the directory is empty. -/
def clearDir (_ : DirListing) : DirListing := []

/-- The local-tier effect of `archive_session` (archive_session.py
lines 298-335): mark the session archived, write the archive report and the
updated Session document into the local directory (the copy to the global tier
does not touch the local directory), then — unless `keep_local` — delete every
entry and write the `.last_session` breadcrumb holding the session's id. -/
def archive_session_local (localDir : DirListing) (sess : Session)
    (reportText now : String) (keepLocal : Bool) : DirListing :=
  let sessArchived : Session := { sess with status := "archived", archived_at := some now }
  let d1 := setEntry localDir "session_archive.md" (FsEntry.file (FileContent.text reportText))
  let d2 := setEntry d1 "session.json" (FsEntry.file (FileContent.sessionDoc sessArchived))
  if keepLocal then d2
  else setEntry (clearDir d2) ".last_session"
    (FsEntry.file (FileContent.text sessArchived.session_id))

/-- The key-finding computation of `archive_session` (archive_session.py
lines 289-296): the first viral candidate's `name` (falling back to
"See report" when the record has no name) when `viral_candidates` is
non-empty, else a used-URL-count summary when `urls_used` is non-empty, else
the generic placeholder. -/
def compute_key_finding (sp : Scratchpad) : String :=
  match sp.viral_candidates with
  | first :: _ => first.name.getD "See report"
  | [] =>
    match sp.urls_used with
    | [] => "See report"
    | used => toString used.length ++ " URLs used"

/-- The key-finding truncation in `update_session_index` (archive_session.py
lines 158-160): a string longer than 40 characters becomes its first 37
characters followed by "...". -/
def truncate_key_finding (s : String) : String :=
  if 40 < s.data.length then String.mk (s.data.take 37 ++ "...".data) else s

/-- A Scratchpad whose only content is one named viral candidate. -/
def viralOnlyScratchpad : Scratchpad :=
  { urls_visited := []
    urls_used := []
    urls_skipped := []
    viral_candidates := [{ name := some "toolX", url := some "https://x",
                           why := some "fast", novel := none, notes := none,
                           title := none, insight := none }]
    groundbreaker_candidates := []
    arxiv_papers := []
    findings := []
    checkpoints := []
    last_checkpoint := none
    last_updated := none }

/-- A 50-character key-finding string. -/
def fiftyCharFinding : String :=
  "01234567890123456789012345678901234567890123456789"

/-- The used/skipped mark in the narrative table row (log_url.py
line 127). -/
def usedMark (e : LogEntry) : String :=
  if e.used then "✓" else if e.skipped then "✗" else "—"

/-- The narrative-table row for one entry (log_url.py line 128). -/
def markdownRow (e : LogEntry) : String :=
  "| " ++ e.time ++ " | " ++ e.source ++ " | " ++ e.url ++ " | " ++ usedMark e
    ++ " | " ++ e.relevance_stars ++ " | " ++ e.notes ++ " |"

/-- Whether `needle` is an initial segment of `hay` (character lists). -/
def isPrefixChars : List Char → List Char → Bool
  | [], _ => true
  | _ :: _, [] => false
  | a :: as, b :: bs => a == b && isPrefixChars as bs

/-- Whether `needle` occurs as a contiguous run anywhere in `hay` (Python's
`needle in hay` on strings). -/
def containsChars (needle : List Char) : List Char → Bool
  | [] => needle.isEmpty
  | c :: rest => isPrefixChars needle (c :: rest) || containsChars needle rest

/-- Python's substring test `needle in hay`. -/
def containsSubstring (hay needle : String) : Bool :=
  containsChars needle.data hay.data

/-- The row-insertion scan of `log_to_markdown` (log_url.py lines 130-136):
walk the lines keeping the previous one; at the first line starting with
`|---` whose predecessor mentions `Source`, insert the row right after it and
stop. When no such pair exists the lines are returned unchanged. -/
def insertRowAfterSeparator (row : String) : Option String → List String → List String
  | _, [] => []
  | prev, l :: rest =>
    if l.startsWith "|---"
        && (match prev with
            | some p => containsSubstring p "Source"
            | none => false) then
      l :: row :: rest
    else
      l :: insertRowAfterSeparator row (some l) rest

/-- `log_to_markdown`'s content transformation on the narrative log's lines
(`content.split("\n")` ... `"\n".join(lines)`). -/
def insert_log_row (lines : List String) (row : String) : List String :=
  insertRowAfterSeparator row none lines

/-- The document-level update of `log_to_scratchpad` (log_url.py
lines 148-170): run schema defaulting, append the `url_entry` projection to
`urls_visited`, append the URL to `urls_used` if used else to `urls_skipped`
if skipped, and set `last_updated`. -/
def apply_log_event_doc (d : ScratchpadDoc) (e : LogEntry) : ScratchpadDoc :=
  let d0 := ensure_scratchpad_keys d
  let d1 := { d0 with urls_visited := some (d0.urls_visited.getD [] ++ [url_entry_of e]) }
  let d2 :=
    if e.used then { d1 with urls_used := some (d1.urls_used.getD [] ++ [e.url]) }
    else if e.skipped then
      { d1 with urls_skipped := some (d1.urls_skipped.getD [] ++ [e.url]) }
    else d1
  { d2 with last_updated := some (some e.timestamp) }

/-- Double every quote character (log_url.py line 183's
`s.replace(chr(34), chr(34)+chr(34))`). -/
def doubleQuoteChars : List Char → List Char
  | [] => []
  | c :: rest =>
    if c = '"' then '"' :: '"' :: doubleQuoteChars rest
    else c :: doubleQuoteChars rest

/-- The per-field CSV escaping of `log_to_csv` (log_url.py lines 180-184): a
field containing a comma, quote or newline is wrapped in quotes with internal
quotes doubled. -/
def csvEscape (s : String) : String :=
  if s.data.contains ',' || s.data.contains '"' || s.data.contains '\n' then
    "\"" ++ String.mk (doubleQuoteChars s.data) ++ "\""
  else s

/-- Python's `str` applied to the optional `stars` value: `str(None)` is the
four-character string "None". -/
def pyStrOfStars : Option Int → String
  | some n => toString n
  | none => "None"

/-- Python slicing `s[:n]`. -/
def strTake (s : String) (n : Nat) : String :=
  String.mk (s.data.take n)

/-- The CSV row of `log_to_csv` (log_url.py lines 186-196). -/
def csvRow (e : LogEntry) : String :=
  String.intercalate ","
    [csvEscape e.name, csvEscape e.url, csvEscape e.source, csvEscape e.filter,
      csvEscape (pyStrOfStars e.stars), csvEscape (strTake e.timestamp 10),
      csvEscape (toString e.relevance),
      csvEscape (if e.used then "yes" else "no"), csvEscape e.notes]

/-- The three representation files of one session, each slot `none` when the
file does not exist at the session's recorded path (narrative log as its
lines, structured state as the parsed Scratchpad document, CSV export as its
lines). -/
structure SessionFiles where
  session_log : Option (List String)
  scratchpad : Option ScratchpadDoc
  sources : Option (List String)
deriving Repr, DecidableEq

/-- `log_to_markdown` (log_url.py lines 117-138): a no-op when the narrative
log does not exist. -/
def log_to_markdown (fs : SessionFiles) (e : LogEntry) : SessionFiles :=
  match fs.session_log with
  | none => fs
  | some lines => { fs with session_log := some (insert_log_row lines (markdownRow e)) }

/-- `log_to_scratchpad` (log_url.py lines 141-170): a no-op when the
scratchpad file does not exist. -/
def log_to_scratchpad (fs : SessionFiles) (e : LogEntry) : SessionFiles :=
  match fs.scratchpad with
  | none => fs
  | some d => { fs with scratchpad := some (apply_log_event_doc d e) }

/-- `log_to_csv` (log_url.py lines 173-199): a no-op when the CSV export does
not exist, else appends one row. -/
def log_to_csv (fs : SessionFiles) (e : LogEntry) : SessionFiles :=
  match fs.sources with
  | none => fs
  | some lines => { fs with sources := some (lines ++ [csvRow e]) }

/-- The three writer calls of `log_url.main` (lines 256-259), in source
order. -/
def log_all_outputs (fs : SessionFiles) (e : LogEntry) : SessionFiles :=
  log_to_csv (log_to_scratchpad (log_to_markdown fs e) e) e

/-- A session file-set where the narrative log is missing but the other two
representations exist. -/
def partialSessionFiles : SessionFiles :=
  { session_log := none
    scratchpad := some emptyScratchpadDoc
    sources := some ["name,url,type,filter,stars,date,relevance,used,notes"] }

/-- A concrete logged entry. -/
def sampleEntry : LogEntry :=
  { url := "https://github.com/user/repo"
    source := "github"
    name := "user/repo"
    timestamp := "2025-01-01T12:00:00"
    time := "12:00"
    used := true
    skipped := false
    relevance := 3
    relevance_stars := "★★★"
    notes := "useful"
    filter := ""
    stars := some 1200 }

/-- The copy loop of `init_session.load_session` (init_session.py
lines 241-243): `for file in global_dir.iterdir(): if file.is_file():` copy
its bytes into the local directory under the same name — subdirectory entries
are skipped. -/
def copyTopLevelFiles : DirListing → DirListing → DirListing
  | [], dst => dst
  | (nm, FsEntry.file c) :: rest, dst =>
      copyTopLevelFiles rest (setEntry dst nm (FsEntry.file c))
  | (_, FsEntry.dir _) :: rest, dst => copyTopLevelFiles rest dst

/-- `init_session.load_session` (init_session.py lines 226-248): read the
global Session document (none when absent or not a Session document —
`FileNotFoundError` / parse error), mark it `resumed` with a `resumed_at`
timestamp, copy the global directory's top-level regular files into the local
directory, point `paths["local"]` at the local directory and write the updated
Session document there. The global directory is never written. Returns the
(unchanged) global directory, the new local directory and the updated
session. -/
def load_session (globalDir localDir : DirListing) (now localPath : String) :
    Option (DirListing × DirListing × Session) :=
  match lookupEntry globalDir "session.json" with
  | some (FsEntry.file (FileContent.sessionDoc s)) =>
    let s1 : Session := { s with status := "resumed", resumed_at := some now }
    let copied := copyTopLevelFiles globalDir localDir
    let s2 : Session := { s1 with paths_local := localPath }
    some (globalDir,
      setEntry copied "session.json" (FsEntry.file (FileContent.sessionDoc s2)), s2)
  | _ => none

/-- A concrete archived session in the global store. -/
def sampleSession : Session :=
  { session_id := "topic-20250101-000000-abc123"
    topic := "topic"
    workflow := "research"
    environment := "cli"
    started := "2025-01-01T00:00:00"
    status := "archived"
    paths_local := "/old/.agent/research"
    resumed_at := none
    archived_at := some "2025-01-02T00:00:00" }

/-- A concrete global session directory holding the Session document, a
regular file and a subdirectory. -/
def sampleGlobalDir : DirListing :=
  [("session.json", FsEntry.file (FileContent.sessionDoc sampleSession)),
    ("scratchpad.json", FsEntry.file (FileContent.text "scratchpad-content")),
    ("assets", FsEntry.dir [("notes.txt", "notes-content")])]

end AgentCore

namespace AgentCore

/-- C1: `apply_log_event` appends the entry to `urls_visited`, appends the URL
to `urls_used` exactly when `used` is set, else to `urls_skipped` exactly when
`skipped` is set — never to both — sets `last_updated` to the entry's
timestamp, and leaves every other Scratchpad sequence unchanged. -/
theorem apply_log_event_updates (sp : Scratchpad) (e : LogEntry) :
    (apply_log_event sp e).urls_visited = sp.urls_visited ++ [url_entry_of e]
    ∧ (apply_log_event sp e).urls_used =
        (if e.used then sp.urls_used ++ [e.url] else sp.urls_used)
    ∧ (apply_log_event sp e).urls_skipped =
        (if e.used = false ∧ e.skipped = true then sp.urls_skipped ++ [e.url]
         else sp.urls_skipped)
    ∧ ¬((apply_log_event sp e).urls_used ≠ sp.urls_used
        ∧ (apply_log_event sp e).urls_skipped ≠ sp.urls_skipped)
    ∧ (apply_log_event sp e).last_updated = some e.timestamp
    ∧ (apply_log_event sp e).viral_candidates = sp.viral_candidates
    ∧ (apply_log_event sp e).groundbreaker_candidates = sp.groundbreaker_candidates
    ∧ (apply_log_event sp e).arxiv_papers = sp.arxiv_papers
    ∧ (apply_log_event sp e).findings = sp.findings
    ∧ (apply_log_event sp e).checkpoints = sp.checkpoints := by
  cases hu : e.used <;> cases hs : e.skipped <;>
    simp [apply_log_event, hu, hs]

/-- C2 (counterexample): invoking `log_url.py` with both `--used` and
`--skipped` builds an entry whose `used` and `skipped` fields are both true —
`main` performs no mutual-exclusion check on the two flags. -/
theorem build_entry_both_flags :
    (build_entry (fun _ => "web") (fun _ _ => "example.com") "2025-01-01T00:00:00"
        "00:00" bothFlagsArgs).used = true
    ∧ (build_entry (fun _ => "web") (fun _ _ => "example.com") "2025-01-01T00:00:00"
        "00:00" bothFlagsArgs).skipped = true :=
  ⟨rfl, rfl⟩

/-- C3 (counterexample): `log_url.py`'s `get_current_session` does not return
`None` on a malformed Session document — the parse failure propagates as an
exception, refuting "never raises to the caller" for this reader. -/
theorem get_current_session_log_url_raises :
    get_current_session_log_url (fun _ => none) (some "not a json document")
      = Except.error "JSONDecodeError" := rfl

/-- C3 (amended): `archive_session.py`'s and `sync_environments.py`'s
`get_current_session` return none when the document is absent or malformed and
never raise; `log_url.py`'s `get_current_session` returns none when the
document is absent but propagates the parse error when it is malformed; all
three return the parsed Session when the document parses. -/
theorem get_current_session_malformed (parse : String → Option Session)
    (content : Option String) :
    (content = none → get_current_session_archive parse content = none)
    ∧ (∀ text, content = some text → parse text = none →
        get_current_session_archive parse content = none)
    ∧ (content = none →
        get_current_session_log_url parse content = Except.ok none)
    ∧ (∀ text, content = some text → parse text = none →
        get_current_session_log_url parse content = Except.error "JSONDecodeError")
    ∧ (∀ text s, content = some text → parse text = some s →
        get_current_session_archive parse content = some s
        ∧ get_current_session_log_url parse content = Except.ok (some s)) := by
  refine ⟨?_, ?_, ?_, ?_, ?_⟩
  · rintro rfl; rfl
  · rintro text rfl hp
    simp [get_current_session_archive, hp]
  · rintro rfl; rfl
  · rintro text rfl hp
    simp [get_current_session_log_url, hp]
  · rintro text s rfl hp
    refine ⟨?_, ?_⟩ <;> simp [get_current_session_archive, get_current_session_log_url, hp]

/-- C3 (witness for the amended theorem): concrete instances — a malformed
document read by the archive reader yields none, and an absent document read
by the log-url reader yields `ok none`. -/
theorem get_current_session_malformed_witness :
    get_current_session_archive (fun _ => none) (some "not a json document") = none
    ∧ get_current_session_log_url (fun _ => none) none = Except.ok none :=
  ⟨(get_current_session_malformed (fun _ => none) (some "not a json document")).2.1
      "not a json document" rfl rfl,
    (get_current_session_malformed (fun _ => none) none).2.2.1 rfl⟩

/-- C4 (counterexample): defaulting the empty document leaves `last_updated`
(and `last_checkpoint`) absent — they are not in the `defaults` table of
`ensure_scratchpad_keys`, so the claim that every defined key including these
two is present after a load fails. -/
theorem ensure_scratchpad_keys_misses_timestamps :
    (ensure_scratchpad_keys emptyScratchpadDoc).last_updated = none
    ∧ (ensure_scratchpad_keys emptyScratchpadDoc).last_checkpoint = none :=
  ⟨rfl, rfl⟩

/-- C4 (amended): schema defaulting fills each of the eight sequence-valued
keys — present values kept, absent keys set to the empty sequence — so all
eight are present after any load; `last_checkpoint` and `last_updated` are not
defaulted and are returned exactly as found. -/
theorem ensure_scratchpad_keys_defaults (d : ScratchpadDoc) :
    sequenceKeysPresent (ensure_scratchpad_keys d)
    ∧ (ensure_scratchpad_keys d).urls_visited = some (d.urls_visited.getD [])
    ∧ (ensure_scratchpad_keys d).urls_used = some (d.urls_used.getD [])
    ∧ (ensure_scratchpad_keys d).urls_skipped = some (d.urls_skipped.getD [])
    ∧ (ensure_scratchpad_keys d).viral_candidates = some (d.viral_candidates.getD [])
    ∧ (ensure_scratchpad_keys d).groundbreaker_candidates
        = some (d.groundbreaker_candidates.getD [])
    ∧ (ensure_scratchpad_keys d).arxiv_papers = some (d.arxiv_papers.getD [])
    ∧ (ensure_scratchpad_keys d).findings = some (d.findings.getD [])
    ∧ (ensure_scratchpad_keys d).checkpoints = some (d.checkpoints.getD [])
    ∧ (ensure_scratchpad_keys d).last_checkpoint = d.last_checkpoint
    ∧ (ensure_scratchpad_keys d).last_updated = d.last_updated :=
  ⟨⟨rfl, rfl, rfl, rfl, rfl, rfl, rfl, rfl⟩,
    rfl, rfl, rfl, rfl, rfl, rfl, rfl, rfl, rfl, rfl⟩

theorem addResourceLearnings_eq_spec (items : List VisitedItem) :
    ∀ acc : List Learning,
      addResourceLearnings acc items
        = acc ++ resourceLearningsSpec (acc.map (fun l => l.url)) items := by
  induction items with
  | nil =>
    intro acc
    simp [addResourceLearnings, resourceLearningsSpec]
  | cons item rest ih =>
    intro acc
    by_cases h : 3 ≤ item.relevance.getD 0 ∧ ∀ l ∈ acc, item.url ≠ some l.url
    · have h' : 3 ≤ item.relevance.getD 0
          ∧ ∀ u ∈ acc.map (fun l => l.url), item.url ≠ some u := by
        refine ⟨h.1, ?_⟩
        intro u hu
        obtain ⟨l, hl, rfl⟩ := List.mem_map.mp hu
        exact h.2 l hl
      simp only [addResourceLearnings, resourceLearningsSpec, if_pos h, if_pos h', ih]
      simp [List.append_assoc]
    · have h' : ¬(3 ≤ item.relevance.getD 0
          ∧ ∀ u ∈ acc.map (fun l => l.url), item.url ≠ some u) := by
        intro hc
        exact h ⟨hc.1, fun l hl => hc.2 l.url (List.mem_map_of_mem _ hl)⟩
      simp only [addResourceLearnings, resourceLearningsSpec, if_neg h, if_neg h', ih]

/-- C5: `extract_learnings` returns, in fixed priority order, the viral
candidates as tool Learnings, the groundbreaker candidates as innovation
Learnings, the arXiv papers as paper Learnings, then the `relevance >= 3`
visited URLs not already represented by an earlier Learning's URL as resource
Learnings (deduplicated by URL only, first occurrence wins); in particular the
same relevance-3 URL logged twice yields a single resource Learning. -/
theorem extract_learnings_priority (sp : Scratchpad) :
    (extract_learnings sp
      = sp.viral_candidates.map viralLearning
        ++ sp.groundbreaker_candidates.map groundbreakerLearning
        ++ sp.arxiv_papers.map arxivLearning
        ++ resourceLearningsSpec
            ((sp.viral_candidates.map viralLearning
              ++ sp.groundbreaker_candidates.map groundbreakerLearning
              ++ sp.arxiv_papers.map arxivLearning).map (fun l => l.url))
            sp.urls_visited)
    ∧ (∀ c : Candidate, (viralLearning c).type = "tool")
    ∧ (∀ c : Candidate, (groundbreakerLearning c).type = "innovation")
    ∧ (∀ c : Candidate, (arxivLearning c).type = "paper")
    ∧ (∀ item : VisitedItem, (resourceLearning item).type = "resource")
    ∧ extract_learnings dupUrlScratchpad = [resourceLearning dupVisited] := by
  refine ⟨?_, fun _ => rfl, fun _ => rfl, fun _ => rfl, fun _ => rfl, ?_⟩
  · rw [extract_learnings, addResourceLearnings_eq_spec]
  · decide

/-- C6: archiving with `keep_local = false` leaves the local tier containing
exactly one file — the `.last_session` breadcrumb — whose content is the
archived session's id. -/
theorem archive_clears_local (localDir : DirListing) (sess : Session)
    (reportText now : String) :
    archive_session_local localDir sess reportText now false
      = [(".last_session", FsEntry.file (FileContent.text sess.session_id))] :=
  rfl

/-- C7: the key finding is the first viral candidate's name when
`viral_candidates` is non-empty (and the candidate carries a name), else a
used-URL-count summary when `urls_used` is non-empty, else the generic
placeholder; and any key finding longer than 40 characters is truncated to its
first 37 characters plus the 3-character ellipsis, total length 40. -/
theorem key_finding_rules (sp : Scratchpad) (s : String) :
    (∀ c rest nm, sp.viral_candidates = c :: rest → c.name = some nm →
        compute_key_finding sp = nm)
    ∧ (sp.viral_candidates = [] → sp.urls_used ≠ [] →
        compute_key_finding sp = toString sp.urls_used.length ++ " URLs used")
    ∧ (sp.viral_candidates = [] → sp.urls_used = [] →
        compute_key_finding sp = "See report")
    ∧ (40 < s.data.length →
        truncate_key_finding s = String.mk (s.data.take 37 ++ "...".data)
        ∧ (truncate_key_finding s).data.length = 40) := by
  refine ⟨?_, ?_, ?_, ?_⟩
  · rintro c rest nm hv hn
    simp [compute_key_finding, hv, hn]
  · intro hv hu
    cases hl : sp.urls_used with
    | nil => exact absurd hl hu
    | cons a t => simp [compute_key_finding, hv, hl]
  · intro hv hu
    simp [compute_key_finding, hv, hu]
  · intro h
    have htr : truncate_key_finding s = String.mk (s.data.take 37 ++ "...".data) := by
      rw [truncate_key_finding, if_pos h]
    refine ⟨htr, ?_⟩
    rw [htr]
    have h37 : (s.data.take 37).length = 37 := by
      rw [List.length_take]
      omega
    have h3 : ("...".data).length = 3 := rfl
    simp [List.length_append, h37, h3]

/-- C7 (witness): on the viral-candidate-only Scratchpad the key finding is
the candidate's name, and the concrete 50-character string truncates to its
first 37 characters plus "...", total length 40. -/
theorem key_finding_rules_witness :
    compute_key_finding viralOnlyScratchpad = "toolX"
    ∧ truncate_key_finding fiftyCharFinding
        = String.mk (fiftyCharFinding.data.take 37 ++ "...".data)
    ∧ (truncate_key_finding fiftyCharFinding).data.length = 40 :=
  ⟨(key_finding_rules viralOnlyScratchpad fiftyCharFinding).1 _ _ _ rfl rfl,
    ((key_finding_rules viralOnlyScratchpad fiftyCharFinding).2.2.2 (by decide)).1,
    ((key_finding_rules viralOnlyScratchpad fiftyCharFinding).2.2.2 (by decide)).2⟩

/-- C9: each of the three representation writes is a no-op exactly when its
target file is absent — the file stays absent — while the writes whose files
exist still occur (narrative row inserted, scratchpad event applied, CSV row
appended), so one logged event can update a strict subset of the three
representations, with no error reported (every writer is total). -/
theorem log_all_outputs_subset (fs : SessionFiles) (e : LogEntry) :
    ((log_all_outputs fs e).session_log = none ↔ fs.session_log = none)
    ∧ ((log_all_outputs fs e).scratchpad = none ↔ fs.scratchpad = none)
    ∧ ((log_all_outputs fs e).sources = none ↔ fs.sources = none)
    ∧ (∀ lines, fs.session_log = some lines →
        (log_all_outputs fs e).session_log
          = some (insert_log_row lines (markdownRow e)))
    ∧ (∀ d, fs.scratchpad = some d →
        (log_all_outputs fs e).scratchpad = some (apply_log_event_doc d e))
    ∧ (∀ lines, fs.sources = some lines →
        (log_all_outputs fs e).sources = some (lines ++ [csvRow e])) := by
  obtain ⟨a, b, c⟩ := fs
  cases a <;> cases b <;> cases c <;>
    simp [log_all_outputs, log_to_markdown, log_to_scratchpad, log_to_csv]

/-- C9 (witness): on a file-set missing the narrative log, logging an entry
leaves the narrative log absent while the scratchpad and the CSV export are
both updated. -/
theorem log_all_outputs_subset_witness :
    (log_all_outputs partialSessionFiles sampleEntry).session_log = none
    ∧ (log_all_outputs partialSessionFiles sampleEntry).scratchpad
        = some (apply_log_event_doc emptyScratchpadDoc sampleEntry)
    ∧ (log_all_outputs partialSessionFiles sampleEntry).sources
        = some (["name,url,type,filter,stars,date,relevance,used,notes"]
            ++ [csvRow sampleEntry]) :=
  ⟨(log_all_outputs_subset partialSessionFiles sampleEntry).1.mpr rfl,
    (log_all_outputs_subset partialSessionFiles sampleEntry).2.2.2.2.1 _ rfl,
    (log_all_outputs_subset partialSessionFiles sampleEntry).2.2.2.2.2 _ rfl⟩

theorem lookupEntry_setEntry_self (d : DirListing) (nm : String) (v : FsEntry) :
    lookupEntry (setEntry d nm v) nm = some v := by
  induction d with
  | nil => simp [setEntry, lookupEntry]
  | cons p rest ih =>
    obtain ⟨k, w⟩ := p
    by_cases h : k = nm
    · simp [setEntry, lookupEntry, h]
    · simp [setEntry, lookupEntry, h, ih]

theorem lookupEntry_setEntry_of_ne (d : DirListing) (nm nm' : String) (v : FsEntry)
    (h : nm' ≠ nm) :
    lookupEntry (setEntry d nm v) nm' = lookupEntry d nm' := by
  induction d with
  | nil => simp [setEntry, lookupEntry, Ne.symm h]
  | cons p rest ih =>
    obtain ⟨k, w⟩ := p
    by_cases hk : k = nm
    · subst hk
      simp [setEntry, lookupEntry, Ne.symm h]
    · by_cases hk2 : k = nm'
      · simp [setEntry, lookupEntry, hk, hk2, h]
      · simp [setEntry, lookupEntry, hk, hk2, ih]

theorem lookupEntry_eq_of_mem :
    ∀ (d : DirListing) (nm : String) (v : FsEntry),
      (d.map Prod.fst).Nodup → (nm, v) ∈ d → lookupEntry d nm = some v := by
  intro d
  induction d with
  | nil =>
    intro nm v _ h
    simp at h
  | cons p rest ih =>
    intro nm v hnd hmem
    obtain ⟨k, w⟩ := p
    have hnd' : k ∉ rest.map Prod.fst ∧ (rest.map Prod.fst).Nodup := by
      simp only [List.map_cons, List.nodup_cons] at hnd
      exact hnd
    rcases List.mem_cons.mp hmem with heq | htail
    · cases heq
      simp [lookupEntry]
    · have hk : k ≠ nm := by
        intro hkeq
        subst hkeq
        exact hnd'.1 (List.mem_map_of_mem Prod.fst htail)
      simp only [lookupEntry, if_neg hk]
      exact ih nm v hnd'.2 htail

theorem lookupEntry_copyTopLevelFiles_of_not_mem :
    ∀ (src dst : DirListing) (nm : String),
      nm ∉ src.map Prod.fst →
      lookupEntry (copyTopLevelFiles src dst) nm = lookupEntry dst nm := by
  intro src
  induction src with
  | nil =>
    intro dst nm _
    rfl
  | cons p rest ih =>
    intro dst nm h
    obtain ⟨k, e⟩ := p
    have hk : k ≠ nm := by
      intro hkeq
      subst hkeq
      exact h (by simp)
    have htail : nm ∉ rest.map Prod.fst := by
      intro hc
      exact h (by simp [hc])
    cases e with
    | file c =>
      simp only [copyTopLevelFiles]
      rw [ih _ _ htail, lookupEntry_setEntry_of_ne _ _ _ _ (Ne.symm hk)]
    | dir sub =>
      simp only [copyTopLevelFiles]
      exact ih _ _ htail

theorem lookupEntry_copyTopLevelFiles_file :
    ∀ (src dst : DirListing) (nm : String) (c : FileContent),
      (src.map Prod.fst).Nodup → (nm, FsEntry.file c) ∈ src →
      lookupEntry (copyTopLevelFiles src dst) nm = some (FsEntry.file c) := by
  intro src
  induction src with
  | nil =>
    intro dst nm c _ h
    simp at h
  | cons p rest ih =>
    intro dst nm c hnd hmem
    obtain ⟨k, e⟩ := p
    have hnd' : k ∉ rest.map Prod.fst ∧ (rest.map Prod.fst).Nodup := by
      simp only [List.map_cons, List.nodup_cons] at hnd
      exact hnd
    rcases List.mem_cons.mp hmem with heq | htail
    · cases heq
      simp only [copyTopLevelFiles]
      rw [lookupEntry_copyTopLevelFiles_of_not_mem _ _ _ hnd'.1,
        lookupEntry_setEntry_self]
    · cases e with
      | file c' =>
        simp only [copyTopLevelFiles]
        exact ih _ _ _ hnd'.2 htail
      | dir sub =>
        simp only [copyTopLevelFiles]
        exact ih _ _ _ hnd'.2 htail

theorem lookupEntry_copyTopLevelFiles_dir :
    ∀ (src dst : DirListing) (nm : String) (sub : List (String × String)),
      (src.map Prod.fst).Nodup → (nm, FsEntry.dir sub) ∈ src →
      lookupEntry (copyTopLevelFiles src dst) nm = lookupEntry dst nm := by
  intro src
  induction src with
  | nil =>
    intro dst nm sub _ h
    simp at h
  | cons p rest ih =>
    intro dst nm sub hnd hmem
    obtain ⟨k, e⟩ := p
    have hnd' : k ∉ rest.map Prod.fst ∧ (rest.map Prod.fst).Nodup := by
      simp only [List.map_cons, List.nodup_cons] at hnd
      exact hnd
    rcases List.mem_cons.mp hmem with heq | htail
    · cases heq
      simp only [copyTopLevelFiles]
      exact lookupEntry_copyTopLevelFiles_of_not_mem _ _ _ hnd'.1
    · cases e with
      | file c' =>
        have hk : k ≠ nm := by
          intro hkeq
          subst hkeq
          exact hnd'.1 (List.mem_map_of_mem Prod.fst htail)
        simp only [copyTopLevelFiles]
        rw [ih _ _ _ hnd'.2 htail, lookupEntry_setEntry_of_ne _ _ _ _ (Ne.symm hk)]
      | dir sub' =>
        simp only [copyTopLevelFiles]
        exact ih _ _ _ hnd'.2 htail

/-- C10: continuing an existing global session copies only the top-level
regular files of the global session directory into the local tier (names bound
to subdirectories are left as they were locally, and names absent from the
global directory are untouched), writes the Session document locally with
status "resumed", a `resumed_at` timestamp and the local path, and returns the
global directory unchanged — in particular the global Session document is not
rewritten. -/
theorem load_session_copies (globalDir localDir : DirListing)
    (now localPath : String) (s : Session)
    (hnd : (globalDir.map Prod.fst).Nodup)
    (hs : lookupEntry globalDir "session.json"
        = some (FsEntry.file (FileContent.sessionDoc s))) :
    ∃ localDir',
      load_session globalDir localDir now localPath
        = some (globalDir, localDir',
            { s with
              status := "resumed"
              resumed_at := some now
              paths_local := localPath })
      ∧ lookupEntry localDir' "session.json"
          = some (FsEntry.file (FileContent.sessionDoc
              { s with
                status := "resumed"
                resumed_at := some now
                paths_local := localPath }))
      ∧ (∀ nm c, nm ≠ "session.json" → (nm, FsEntry.file c) ∈ globalDir →
          lookupEntry localDir' nm = some (FsEntry.file c))
      ∧ (∀ nm sub, (nm, FsEntry.dir sub) ∈ globalDir →
          lookupEntry localDir' nm = lookupEntry localDir nm)
      ∧ (∀ nm, nm ∉ globalDir.map Prod.fst → nm ≠ "session.json" →
          lookupEntry localDir' nm = lookupEntry localDir nm) := by
  refine ⟨setEntry (copyTopLevelFiles globalDir localDir) "session.json"
      (FsEntry.file (FileContent.sessionDoc
        { s with
          status := "resumed"
          resumed_at := some now
          paths_local := localPath })), ?_, ?_, ?_, ?_, ?_⟩
  · simp [load_session, hs]
  · exact lookupEntry_setEntry_self _ _ _
  · intro nm c hne hmem
    rw [lookupEntry_setEntry_of_ne _ _ _ _ hne]
    exact lookupEntry_copyTopLevelFiles_file _ _ _ _ hnd hmem
  · intro nm sub hmem
    have hne : nm ≠ "session.json" := by
      intro hkeq
      subst hkeq
      have hlk := lookupEntry_eq_of_mem _ _ _ hnd hmem
      rw [hs] at hlk
      simp at hlk
    rw [lookupEntry_setEntry_of_ne _ _ _ _ hne]
    exact lookupEntry_copyTopLevelFiles_dir _ _ _ _ hnd hmem
  · intro nm hnmem hne
    rw [lookupEntry_setEntry_of_ne _ _ _ _ hne]
    exact lookupEntry_copyTopLevelFiles_of_not_mem _ _ _ hnmem

/-- C10 (witness): continuing the concrete sample session copies the
scratchpad file, skips the `assets` subdirectory, and returns the resumed
Session document together with the unchanged global directory. -/
theorem load_session_copies_witness :
    ∃ localDir',
      load_session sampleGlobalDir [] "2025-01-03T09:00:00" "/new/.agent/research"
        = some (sampleGlobalDir, localDir',
            { sampleSession with
              status := "resumed"
              resumed_at := some "2025-01-03T09:00:00"
              paths_local := "/new/.agent/research" })
      ∧ lookupEntry localDir' "scratchpad.json"
          = some (FsEntry.file (FileContent.text "scratchpad-content"))
      ∧ lookupEntry localDir' "assets" = none := by
  obtain ⟨l, h1, h2, h3, h4, h5⟩ :=
    load_session_copies sampleGlobalDir [] "2025-01-03T09:00:00"
      "/new/.agent/research" sampleSession (by decide) rfl
  refine ⟨l, h1, ?_, ?_⟩
  · exact h3 "scratchpad.json" (FileContent.text "scratchpad-content")
      (by decide) (by decide)
  · rw [h4 "assets" [("notes.txt", "notes-content")] (by decide)]
    rfl

/-- C8: schema defaulting is idempotent — a document already containing every
defined key is returned unchanged, and defaulting twice equals defaulting
once. -/
theorem ensure_scratchpad_keys_idempotent (d : ScratchpadDoc) :
    (scratchpadDocComplete d → ensure_scratchpad_keys d = d)
    ∧ ensure_scratchpad_keys (ensure_scratchpad_keys d) = ensure_scratchpad_keys d := by
  obtain ⟨f1, f2, f3, f4, f5, f6, f7, f8, f9, f10⟩ := d
  refine ⟨?_, rfl⟩
  rintro ⟨⟨h1, h2, h3, h4, h5, h6, h7, h8⟩, -, -⟩
  obtain ⟨v1, e1⟩ := Option.isSome_iff_exists.mp h1
  obtain ⟨v2, e2⟩ := Option.isSome_iff_exists.mp h2
  obtain ⟨v3, e3⟩ := Option.isSome_iff_exists.mp h3
  obtain ⟨v4, e4⟩ := Option.isSome_iff_exists.mp h4
  obtain ⟨v5, e5⟩ := Option.isSome_iff_exists.mp h5
  obtain ⟨v6, e6⟩ := Option.isSome_iff_exists.mp h6
  obtain ⟨v7, e7⟩ := Option.isSome_iff_exists.mp h7
  obtain ⟨v8, e8⟩ := Option.isSome_iff_exists.mp h8
  subst e1 e2 e3 e4 e5 e6 e7 e8
  rfl

/-- C8 (witness): defaulting the complete document written by
`init_session.create_scratchpad` returns it unchanged. -/
theorem ensure_scratchpad_keys_idempotent_witness :
    ensure_scratchpad_keys completeScratchpadDoc = completeScratchpadDoc :=
  (ensure_scratchpad_keys_idempotent completeScratchpadDoc).1
    ⟨⟨rfl, rfl, rfl, rfl, rfl, rfl, rfl, rfl⟩, rfl, rfl⟩

/-- C2 (amended): the constructed entry's `used` and `skipped` fields are both
true exactly when both the `--used` and `--skipped` flags were passed; with at
most one of the two flags, they are never both true. -/
theorem build_entry_used_skipped (detect : String → String)
    (extractName : String → String → String) (now_iso now_hm : String)
    (args : LogArgs) :
    ((build_entry detect extractName now_iso now_hm args).used = true
      ∧ (build_entry detect extractName now_iso now_hm args).skipped = true)
    ↔ (args.used = true ∧ args.skipped = true) :=
  Iff.rfl

end AgentCore
